import Mathlib

/-!
Shallow embedding of the resource-allocation and cost-optimization engine of
the high-school-budget repository: `src/models/CostCalculator.js`,
`src/models/ResourceAllocator.js` and the `OptimizationAlgorithm` class
(`src/unnamed/part_003`).

JavaScript numbers are modelled by `ℚ`; a value that JavaScript would turn
into a non-finite number (`NaN` or `±Infinity`, e.g. by dividing by zero or
by doing arithmetic on `undefined`) is modelled by `none : Option ℚ`.
Optional / possibly-`undefined` object fields are `Option` fields.
-/

/-- JS `x || d` on a possibly-undefined number: `undefined`, `NaN` and `0`
are falsy, so they select the default. -/
def jsOrDefault : Option ℚ → ℚ → ℚ
  | none, d => d
  | some v, d => if v = 0 then d else v

/-- JS division: a zero denominator produces a non-finite number (`none`). -/
def jsDiv (a b : ℚ) : Option ℚ :=
  if b = 0 then none else some (a / b)

/-- Addition where a non-finite operand poisons the result, as JS `NaN` does. -/
def oadd : Option ℚ → Option ℚ → Option ℚ
  | some a, some b => some (a + b)
  | _, _ => none

/-- Multiplication by a finite constant, propagating non-finiteness. -/
def omul : Option ℚ → ℚ → Option ℚ
  | some a, b => some (a * b)
  | none, _ => none

/-- JS `<` on possibly non-finite numbers: any comparison with `NaN` is false.
(The engine only ever compares `NaN`-tainted values, never infinities.) -/
def oLt : Option ℚ → Option ℚ → Bool
  | some a, some b => decide (a < b)
  | _, _ => false

/-- JS `>` on possibly non-finite numbers, false when either side is `NaN`. -/
def oGt : Option ℚ → Option ℚ → Bool
  | some a, some b => decide (b < a)
  | _, _ => false

/-- JS `<=` on possibly non-finite numbers, false when either side is `NaN`. -/
def oLe : Option ℚ → Option ℚ → Bool
  | some a, some b => decide (a ≤ b)
  | _, _ => false

/-- JS `>=` on possibly non-finite numbers, false when either side is `NaN`. -/
def oGe : Option ℚ → Option ℚ → Bool
  | some a, some b => decide (b ≤ a)
  | _, _ => false

/-- `Math.round`: half-way cases round toward `+∞`; `NaN` stays `NaN`. -/
def jsRound : Option ℚ → Option ℚ
  | none => none
  | some q => some ((⌊q + 1/2⌋ : ℤ) : ℚ)

/-- Does `hay` start with `needle`? (char-list version of a prefix test). -/
def listStartsWith : List Char → List Char → Bool
  | _, [] => true
  | [], _ :: _ => false
  | a :: h, b :: n => a == b && listStartsWith h n

/-- Substring occurrence test on char lists, used to model JS
`String.prototype.includes`. -/
def listHasSubstr : List Char → List Char → Bool
  | [], n => listStartsWith [] n
  | a :: t, n => listStartsWith (a :: t) n || listHasSubstr t n

/-- JS `hay.includes(needle)`. -/
def jsIncludes (hay needle : String) : Bool :=
  listHasSubstr hay.toList needle.toList

/-- JS `s.toLowerCase()` (character-wise lowering). -/
def jsToLower (s : String) : String :=
  String.mk (s.toList.map Char.toLower)

/-- JS truthiness of a possibly-undefined string: `undefined` and `""` are
falsy. -/
def jsTruthyStr : Option String → Bool
  | none => false
  | some s => !(s == "")

/-- JS `s || d` on a possibly-undefined string: `undefined` and `""` are
falsy, so they select the default. -/
def jsOrDefaultStr : Option String → String → String
  | none, d => d
  | some s, d => if s = "" then d else s

/-- First token of JS `name.split(' ')[0]`: the characters before the
first space. -/
def firstToken (s : String) : String :=
  String.mk (s.toList.takeWhile (fun c => c != ' '))

/-- Association-list lookup (models reading a key of a JS object). -/
def alookup {β : Type} : List (ℕ × β) → ℕ → Option β
  | [], _ => none
  | p :: l, d => if p.1 = d then some p.2 else alookup l d

/-- Association-list write (models assigning a key of a JS object):
replaces the first binding of the key, or appends a fresh one. -/
def aset {β : Type} : List (ℕ × β) → ℕ → β → List (ℕ × β)
  | [], d, v => [(d, v)]
  | p :: l, d, v => if p.1 = d then (d, v) :: l else p :: aset l d v

/-! ## Data model (from §3 of the spec / the duck-typed JS records) -/

/-- A course row as consumed by the engine (`course.*` accesses in the
source). Fields the source guards with `||` fallbacks are `Option`s. -/
structure Course where
  id : ℕ
  department_id : ℕ
  expected_students : ℚ
  instructor_cost : Option ℚ
  classroom_cost : Option ℚ
  credit_hours : Option ℚ
  hours_per_week : Option ℚ
  name : String
  subject : Option String
  facility_type : Option String
  deriving DecidableEq

/-- An instructor row (`instructor.*` accesses in the source). -/
structure Instructor where
  id : ℕ
  department_id : ℕ
  employment_type : String
  hourly_rate : Option ℚ
  qualifications : Option String
  status : String
  deriving DecidableEq

/-- A facility row (`facility.*` accesses in the source). -/
structure Facility where
  id : ℕ
  department_id : Option ℕ
  type : String
  capacity : ℚ
  hourly_cost : Option ℚ
  utilities_cost_annual : Option ℚ
  maintenance_cost_annual : Option ℚ
  status : String
  deriving DecidableEq

/-- An equipment row (`item.*` accesses in `calculateEquipmentCosts`).
`purchase_date` is a millisecond timestamp, like a JS `Date` value. -/
structure Equipment where
  purchase_cost : ℚ
  purchase_date : ℚ
  depreciation_rate : ℚ
  maintenance_cost_annual : Option ℚ
  deriving DecidableEq

/-- The `resources` argument of the engine entry points. -/
structure Resources where
  instructors : List Instructor
  facilities : List Facility
  equipment : List Equipment
  deriving DecidableEq

/-! ## CostCalculator (src/models/CostCalculator.js) -/

/-- The `costStructures` parameter of the cost calculator: a JS object read
at the keys `instructor_differential`, `facility_overhead`,
`administrative`, `general`. The first two are only tested for truthiness;
the last two are read as `{rate}` records. -/
structure CostStructures where
  instructorDifferential : Bool
  facilityOverhead : Bool
  administrativeRate : Option ℚ
  generalRate : Option ℚ
  deriving DecidableEq

/-- The default `costStructures = {}`: every key is absent. -/
def emptyCostStructures : CostStructures :=
  ⟨false, false, none, none⟩

/-- `course.hours_per_week * 15 || 45` (15-week semester, default 45 h). -/
def hoursPerSemester (course : Course) : ℚ :=
  jsOrDefault (course.hours_per_week.map (fun h => h * 15)) 45

/-- `CostCalculator.getInstructorDifferential`. -/
def getInstructorDifferential (instructor : Instructor)
    (costStructures : CostStructures) : ℚ :=
  if costStructures.instructorDifferential = false then 0
  else
    (if (match instructor.qualifications with
         | some q => jsIncludes q "PhD"
         | none => false) then (15/100 : ℚ) else 0) +
    (if (match instructor.qualifications with
         | some q => jsIncludes q "Masters"
         | none => false) then (8/100 : ℚ) else 0)

/-- `CostCalculator.getFacilityOverheadRate`. -/
def getFacilityOverheadRate (facility : Facility)
    (costStructures : CostStructures) : ℚ :=
  if costStructures.facilityOverhead = false then 1/10
  else
    match facility.type with
    | "LAB" => 2/10
    | "AUDITORIUM" => 15/100
    | _ => 1/10

/-- `CostCalculator.getOverheadRate` (returns `null` when the key is
absent; callers apply `|| default`). -/
def getOverheadRate (rate : Option ℚ) : Option ℚ :=
  rate

/-- Result record of `calculateInstructorCosts`. -/
structure InstructorCosts where
  baseSalary : ℚ
  benefits : ℚ
  differential : ℚ
  total : ℚ
  deriving DecidableEq

/-- `CostCalculator.calculateInstructorCosts`. -/
def calculateInstructorCosts (course : Course) (instructor : Instructor)
    (costStructures : CostStructures) : InstructorCosts :=
  let baseCost := jsOrDefault course.instructor_cost 0
  let hps := hoursPerSemester course
  let (baseSalary, benefits) :=
    match instructor.employment_type with
    | "FULL_TIME" => (baseCost, baseCost * (3/10))
    | "PART_TIME" => (baseCost * (8/10), baseCost * (15/100))
    | "ADJUNCT" =>
        let b := (jsOrDefault instructor.hourly_rate 50) * hps
        (b, b * (5/100))
    | "CONTRACT" => (baseCost * (12/10), 0)
    | _ => (baseCost, baseCost * (2/10))
  let differential := baseSalary * getInstructorDifferential instructor costStructures
  { baseSalary := baseSalary
    benefits := benefits
    differential := differential
    total := baseSalary + benefits + differential }

/-- Result record of `calculateFacilityCosts`. -/
structure FacilityCosts where
  baseRental : ℚ
  utilities : ℚ
  maintenance : ℚ
  overhead : ℚ
  total : ℚ
  deriving DecidableEq

/-- `CostCalculator.calculateFacilityCosts`. -/
def calculateFacilityCosts (course : Course) (facility : Facility)
    (costStructures : CostStructures) : FacilityCosts :=
  let hps := hoursPerSemester course
  let baseRental := (jsOrDefault facility.hourly_cost 0) * hps
  let utilities := ((jsOrDefault facility.utilities_cost_annual 0) / (52 * 40)) * hps
  let maintenance := ((jsOrDefault facility.maintenance_cost_annual 0) / (52 * 40)) * hps
  let overhead := baseRental * getFacilityOverheadRate facility costStructures
  { baseRental := baseRental
    utilities := utilities
    maintenance := maintenance
    overhead := overhead
    total := baseRental + utilities + maintenance + overhead }

/-- Result record of `calculateDepreciation`. -/
structure Depreciation where
  method : String
  yearsOwned : ℚ
  annualDepreciation : ℚ
  accumulatedDepreciation : ℚ
  currentValue : ℚ
  deriving DecidableEq

/-- The per-year loop of the double-declining-balance branch:
`(remaining, total) -> (remaining - remaining*rate, total + remaining*rate)`
iterated `floor(yearsOwned)` times. -/
def decliningLoop (rate : ℚ) : ℕ → ℚ × ℚ → ℚ × ℚ
  | 0, s => s
  | n + 1, (rem, tot) => decliningLoop rate n (rem - rem * rate, tot + rem * rate)

/-- `CostCalculator.calculateDepreciation`. `now` is the wall-clock
millisecond timestamp the source obtains from `new Date()`;
`yearsOwned = (now - purchaseDate) / (1000*60*60*24*365.25)`. -/
def calculateDepreciation (purchaseCost purchaseDate depreciationRate : ℚ)
    (method : String) (now : ℚ) : Depreciation :=
  let yearsOwned := (now - purchaseDate) / 31557600000
  let annual : ℚ :=
    match method with
    | "straight_line" => purchaseCost * depreciationRate
    | "declining_balance" =>
        (decliningLoop (depreciationRate * 2) (Int.toNat ⌊yearsOwned⌋)
          (purchaseCost, 0)).1 * (depreciationRate * 2)
    | "units_of_production" => (purchaseCost / 10000) * 2000
    | _ => 0
  let accumulated : ℚ :=
    match method with
    | "straight_line" =>
        min (purchaseCost * depreciationRate * yearsOwned) (purchaseCost * (9/10))
    | "declining_balance" =>
        (decliningLoop (depreciationRate * 2) (Int.toNat ⌊yearsOwned⌋)
          (purchaseCost, 0)).2
    | "units_of_production" => (purchaseCost / 10000) * (yearsOwned * 2000)
    | _ => 0
  { method := method
    yearsOwned := yearsOwned
    annualDepreciation := annual
    accumulatedDepreciation := accumulated
    currentValue := max (purchaseCost - accumulated) (purchaseCost * (1/10)) }

/-- Result record of `calculateEquipmentCosts`. -/
structure EquipmentCosts where
  depreciation : ℚ
  maintenance : ℚ
  perStudentAllocation : ℚ
  total : ℚ
  deriving DecidableEq

/-- `CostCalculator.calculateEquipmentCosts` (straight-line per item,
halved to a semester). -/
def calculateEquipmentCosts (equipment : List Equipment)
    (expectedStudents : ℚ) (now : ℚ) : EquipmentCosts :=
  let step := fun (acc : ℚ × ℚ) (item : Equipment) =>
    let dep := calculateDepreciation item.purchase_cost item.purchase_date
      item.depreciation_rate "straight_line" now
    (acc.1 + dep.annualDepreciation / 2,
     acc.2 + (jsOrDefault item.maintenance_cost_annual 0) / 2)
  let (deprec, maint) := equipment.foldl step (0, 0)
  { depreciation := deprec
    maintenance := maint
    perStudentAllocation :=
      if 0 < expectedStudents then (deprec + maint) / expectedStudents else 0
    total := deprec + maint }

/-- Result record of `calculateOverheadCosts`. -/
structure OverheadCosts where
  administrative : ℚ
  general : ℚ
  total : ℚ
  deriving DecidableEq

/-- `CostCalculator.calculateOverheadCosts`. -/
def calculateOverheadCosts (course : Course)
    (costStructures : CostStructures) : OverheadCosts :=
  let directCosts := jsOrDefault course.instructor_cost 0 +
    jsOrDefault course.classroom_cost 0
  let adminRate := jsOrDefault (getOverheadRate costStructures.administrativeRate) (12/100)
  let generalRate := jsOrDefault (getOverheadRate costStructures.generalRate) (8/100)
  { administrative := directCosts * adminRate
    general := directCosts * generalRate
    total := directCosts * adminRate + directCosts * generalRate }

/-- Result record of `calculateComprehensiveCost`. `costPerCreditHour` is
an `Option` because the source divides by `expected_students * creditHours`
(guarding only `creditHours > 0`), which can be a division by zero. -/
structure ComprehensiveCost where
  instructorCosts : InstructorCosts
  facilityCosts : FacilityCosts
  equipmentCosts : EquipmentCosts
  overheadCosts : OverheadCosts
  totalCost : ℚ
  costPerStudent : ℚ
  costPerCreditHour : Option ℚ
  deriving DecidableEq

/-- `CostCalculator.calculateComprehensiveCost`. -/
def calculateComprehensiveCost (course : Course) (instructor : Instructor)
    (facility : Facility) (equipment : List Equipment)
    (costStructures : CostStructures) (now : ℚ) : ComprehensiveCost :=
  let ic := calculateInstructorCosts course instructor costStructures
  let fc := calculateFacilityCosts course facility costStructures
  let ec := calculateEquipmentCosts equipment course.expected_students now
  let oc := calculateOverheadCosts course costStructures
  let totalCost := ic.total + fc.total + ec.total + oc.total
  let creditHours := jsOrDefault course.credit_hours 3
  { instructorCosts := ic
    facilityCosts := fc
    equipmentCosts := ec
    overheadCosts := oc
    totalCost := totalCost
    costPerStudent :=
      if 0 < course.expected_students then totalCost / course.expected_students else 0
    costPerCreditHour :=
      if 0 < creditHours then jsDiv totalCost (course.expected_students * creditHours)
      else some 0 }

/-- A budgeted-vs-actual category map: the `total` property plus the other
enumerable category keys, in object-key order. -/
structure CategoryMap where
  total : ℚ
  categories : List (String × ℚ)
  deriving DecidableEq

/-- Category lookup, `actual[category]` on the modelled object. -/
def catLookup (m : CategoryMap) (c : String) : Option ℚ :=
  (m.categories.find? (fun p => p.1 == c)).map (fun p => p.2)

/-- One entry of `variance.categoryVariances`. -/
structure CategoryVariance where
  budgeted : ℚ
  actual : ℚ
  variance : ℚ
  variancePercent : ℚ
  deriving DecidableEq

/-- One entry of `analysis.significantVariances`. -/
structure SignificantVariance where
  category : String
  variance : ℚ
  percent : ℚ
  deriving DecidableEq

/-- Result record of `generateVarianceAnalysis`. `totalVariancePercent` is
an `Option` because the source divides by `budgeted.total` unguarded. -/
structure VarianceAnalysis where
  period : String
  totalVariance : ℚ
  totalVariancePercent : Option ℚ
  categoryVariances : List (String × CategoryVariance)
  favorableVariances : List String
  unfavorableVariances : List String
  significantVariances : List SignificantVariance
  deriving DecidableEq

/-- `CostCalculator.generateVarianceAnalysis`. Iterates the budgeted
object's keys (skipping `total`), exactly as `Object.keys(budgeted)`. -/
def generateVarianceAnalysis (budgeted actual : CategoryMap)
    (period : String) : VarianceAnalysis :=
  let perCat := budgeted.categories.map (fun p =>
    let categoryVariance := (jsOrDefault (catLookup actual p.1) 0 : ℚ) - p.2
    let categoryVariancePercent :=
      if p.2 ≠ 0 then (categoryVariance / p.2) * 100 else 0
    (p.1, { budgeted := p.2
            actual := jsOrDefault (catLookup actual p.1) 0
            variance := categoryVariance
            variancePercent := categoryVariancePercent : CategoryVariance }))
  { period := period
    totalVariance := actual.total - budgeted.total
    totalVariancePercent :=
      omul (jsDiv (actual.total - budgeted.total) budgeted.total) 100
    categoryVariances := perCat
    favorableVariances :=
      (perCat.filter (fun p => decide (p.2.variance < 0))).map (fun p => p.1)
    unfavorableVariances :=
      (perCat.filter (fun p => decide (0 < p.2.variance))).map (fun p => p.1)
    significantVariances :=
      (perCat.filter (fun p => decide (10 < |p.2.variancePercent|))).map (fun p =>
        { category := p.1, variance := p.2.variance, percent := p.2.variancePercent }) }

/-! ## OptimizationAlgorithm (src/unnamed/part_003)

`this.constraints` of the class: `maxInstructorHours: 40`,
`maxFacilityUtilization: 0.85`, `minClassSize: 8`, `maxClassSize: 35`,
`budgetBuffer: 0.05`. Only the last three are read by the modelled code. -/

/-- `this.constraints.budgetBuffer` (5% safety buffer). -/
def budgetBuffer : ℚ := 5/100

/-- `this.constraints.minClassSize`. -/
def minClassSize : ℚ := 8

/-- `this.constraints.maxClassSize`. -/
def maxClassSize : ℚ := 35

/-- `OptimizationAlgorithm.getDepartmentId`: the source is a stub that
ignores the course id and always returns the default department `1`. -/
def getDepartmentId (_courseId : ℕ) : ℕ := 1

/-- `OptimizationAlgorithm.calculateCombinationCost`.
`facility.hourly_cost * 45 || course.classroom_cost || 0` falls through on
`undefined`/`NaN`/`0`. -/
def calculateCombinationCost (course : Course) (instructor : Instructor)
    (facility : Facility) : ℚ :=
  let baseCost := jsOrDefault course.instructor_cost 0
  let facilityCost :=
    match facility.hourly_cost with
    | some h => if h * 45 = 0 then jsOrDefault course.classroom_cost 0 else h * 45
    | none => jsOrDefault course.classroom_cost 0
  let instructorMultiplier : ℚ :=
    match instructor.employment_type with
    | "ADJUNCT" => 7/10
    | "PART_TIME" => 8/10
    | "FULL_TIME" => 1
    | "CONTRACT" => 12/10
    | _ => 1
  baseCost * instructorMultiplier + facilityCost

/-- `OptimizationAlgorithm.calculateUtilityScore`. The capacity ratio is a
raw JS division, so comparisons against a `NaN` ratio are false. -/
def calculateUtilityScore (course : Course) (instructor : Instructor)
    (facility : Facility) : ℚ :=
  let score : ℚ := 100
  let score :=
    if (match instructor.qualifications with
        | some q => jsIncludes q (firstToken course.name)
        | none => false) then score + 20 else score
  let capacityUtilization := jsDiv course.expected_students facility.capacity
  let score :=
    if oGe capacityUtilization (some (7/10)) && oLe capacityUtilization (some (9/10)) then
      score + 15
    else if oLt capacityUtilization (some (1/2)) then score - 10
    else score
  if facility.department_id = some instructor.department_id then score + 10 else score

/-- Result record of `checkConstraints`. -/
structure ConstraintCheck where
  feasible : Bool
  violations : List String
  deriving DecidableEq

/-- `OptimizationAlgorithm.checkConstraints`: class-size bounds are soft
violations, exceeding facility capacity is fatal. -/
def checkConstraints (course : Course) (_instructor : Instructor)
    (facility : Facility) : ConstraintCheck :=
  { feasible := !decide (facility.capacity < course.expected_students)
    violations :=
      (if course.expected_students < minClassSize then ["Class size below minimum"] else []) ++
      (if maxClassSize < course.expected_students then ["Class size above maximum"] else []) ++
      (if facility.capacity < course.expected_students then ["Facility capacity exceeded"] else []) }

/-- A candidate (course, instructor, facility) triple with its derived
scores, as pushed by `generateFeasibleCombinations`. -/
structure Combination where
  courseId : ℕ
  instructorId : ℕ
  facilityId : ℕ
  cost : ℚ
  utilityScore : ℚ
  constraints : ConstraintCheck
  deriving DecidableEq

/-- The combination record built for one (course, instructor, facility). -/
def mkCombination (course : Course) (instructor : Instructor)
    (facility : Facility) : Combination :=
  { courseId := course.id
    instructorId := instructor.id
    facilityId := facility.id
    cost := calculateCombinationCost course instructor facility
    utilityScore := calculateUtilityScore course instructor facility
    constraints := checkConstraints course instructor facility }

/-- Stable insertion of `a` into `l`: `a` goes before the first element `b`
with `le a b`. -/
def insertSorted {α : Type} (le : α → α → Bool) (a : α) : List α → List α
  | [] => [a]
  | b :: l => if le a b then a :: b :: l else b :: insertSorted le a l

/-- Stable sort modelling `Array.prototype.sort` with the given comparator
(modern JS sorts are stable; ties keep generation order, the deterministic
tie-break rule the spec asks for). -/
def sortBy {α : Type} (le : α → α → Bool) : List α → List α
  | [] => []
  | a :: l => insertSorted le a (sortBy le l)

/-- Concatenation of the lists produced for each element, modelling the
nested `forEach`/`push` loops. -/
def concatMap {α β : Type} (f : α → List β) : List α → List β
  | [] => []
  | a :: l => f a ++ concatMap f l

/-- `OptimizationAlgorithm.generateFeasibleCombinations`: instructors must
be in the course's department and ACTIVE; facilities must have enough
capacity, be AVAILABLE, and be in the course's department or of type
CLASSROOM; feasible combinations are collected and sorted by descending
utility score. -/
def generateFeasibleCombinations (resources : Resources)
    (courses : List Course) : List Combination :=
  let combinations := concatMap (fun course =>
    let availableInstructors := resources.instructors.filter (fun i =>
      decide (i.department_id = course.department_id) && decide (i.status = "ACTIVE"))
    let suitableFacilities := resources.facilities.filter (fun f =>
      decide (course.expected_students ≤ f.capacity) &&
      decide (f.status = "AVAILABLE") &&
      (decide (f.department_id = some course.department_id) ||
       decide (f.type = "CLASSROOM")))
    concatMap (fun i =>
      suitableFacilities.filterMap (fun f =>
        let combination := mkCombination course i f
        if combination.constraints.feasible then some combination else none))
      availableInstructors) courses
  sortBy (fun a b => decide (b.utilityScore ≤ a.utilityScore)) combinations

/-- A committed assignment; `assignedAt` is the `new Date()` wall-clock
value at commit time. -/
structure Assignment where
  courseId : ℕ
  instructorId : ℕ
  facilityId : ℕ
  cost : ℚ
  utilityScore : ℚ
  assignedAt : ℚ
  deriving DecidableEq

/-- The assignment record pushed by the greedy loop for a combination. -/
def assignmentOf (c : Combination) (now : ℚ) : Assignment :=
  { courseId := c.courseId
    instructorId := c.instructorId
    facilityId := c.facilityId
    cost := c.cost
    utilityScore := c.utilityScore
    assignedAt := now }

/-- The per-run mutable state of `greedyOptimization`: committed
assignments, the used-instructor set, the used-facility map, and the
department-spending object. A spending value of `none` models a JS
non-number (`undefined` turned `NaN` by `+=`). -/
structure GreedyState where
  assignments : List Assignment
  usedInstructors : List ℕ
  usedFacilities : List ℕ
  departmentSpending : List (ℕ × Option ℚ)
  deriving DecidableEq

/-- Read `departmentSpending[d]`: an absent key is `undefined`, which
behaves like the stored `NaN`s in every use, so both are `none`. -/
def spendingGet (l : List (ℕ × Option ℚ)) (d : ℕ) : Option ℚ :=
  match alookup l d with
  | some v => v
  | none => none

/-- `departmentSpending[d] += cost`: adding to `undefined` or `NaN` stays
non-numeric. -/
def spendAdd : Option ℚ → ℚ → Option ℚ
  | some s, c => some (s + c)
  | none, _ => none

/-- The budget test
`departmentSpending[deptId] + cost > budget[deptId] * (1 - budgetBuffer)`:
with an `undefined`/`NaN` operand the JS `>` is false, so the candidate is
NOT skipped. -/
def budgetSkip (spend : Option ℚ) (cost : ℚ) (budgetEntry : Option ℚ) : Bool :=
  match spend, budgetEntry with
  | some s, some b => decide (b * (1 - budgetBuffer) < s + cost)
  | _, _ => false

/-- One iteration of the `for (const combination of combinations)` loop of
`greedyOptimization`. -/
def greedyStep (budget : List (ℕ × ℚ)) (now : ℚ) (st : GreedyState)
    (combination : Combination) : GreedyState :=
  if combination.instructorId ∈ st.usedInstructors then st
  else
    let deptId := getDepartmentId combination.courseId
    if budgetSkip (spendingGet st.departmentSpending deptId) combination.cost
        (alookup budget deptId) then st
    else if combination.facilityId ∈ st.usedFacilities then st
    else
      { assignments := st.assignments ++ [assignmentOf combination now]
        usedInstructors := combination.instructorId :: st.usedInstructors
        usedFacilities := combination.facilityId :: st.usedFacilities
        departmentSpending := aset st.departmentSpending deptId
          (spendAdd (spendingGet st.departmentSpending deptId) combination.cost) }

/-- The initial greedy state: `departmentSpending[d] = 0` for every key of
the budget object. -/
def greedyInit (budget : List (ℕ × ℚ)) : GreedyState :=
  { assignments := []
    usedInstructors := []
    usedFacilities := []
    departmentSpending := budget.map (fun p => (p.1, some 0)) }

/-- `OptimizationAlgorithm.greedyOptimization`. `now` is the wall-clock
value stamped into each committed assignment. -/
def greedyOptimization (combinations : List Combination)
    (budget : List (ℕ × ℚ)) (now : ℚ) : List Assignment :=
  (combinations.foldl (greedyStep budget now) (greedyInit budget)).assignments

/-- Result record of `calculateUtilization`. The percentages are raw JS
divisions by the resource-list lengths, hence `Option`s. -/
structure Utilization where
  instructorsAssigned : ℕ
  instructorsTotal : ℕ
  instructorsPercentage : Option ℚ
  facilitiesAssigned : ℕ
  facilitiesTotal : ℕ
  facilitiesPercentage : Option ℚ
  overallEfficiency : Option ℚ
  deriving DecidableEq

/-- `new Set(xs).size`: the number of distinct elements. -/
def distinctCount (l : List ℕ) : ℕ :=
  l.eraseDups.length

/-- `OptimizationAlgorithm.calculateUtilization`. -/
def calculateUtilization (assignments : List Assignment)
    (resources : Resources) : Utilization :=
  let ia := distinctCount (assignments.map (fun a => a.instructorId))
  let fa := distinctCount (assignments.map (fun a => a.facilityId))
  let ip := omul (jsDiv (ia : ℚ) (resources.instructors.length : ℚ)) 100
  let fp := omul (jsDiv (fa : ℚ) (resources.facilities.length : ℚ)) 100
  { instructorsAssigned := ia
    instructorsTotal := resources.instructors.length
    instructorsPercentage := ip
    facilitiesAssigned := fa
    facilitiesTotal := resources.facilities.length
    facilitiesPercentage := fp
    overallEfficiency := omul (oadd ip fp) (1/2) }

/-- Result record of `calculateCostBreakdown`. `instructorCosts` and
`facilityCosts` are initialized to 0 and never updated by the source. -/
structure CostBreakdown where
  totalCost : ℚ
  instructorCosts : ℚ
  facilityCosts : ℚ
  departmentCosts : List (ℕ × ℚ)
  averageCostPerCourse : ℚ
  deriving DecidableEq

/-- `OptimizationAlgorithm.calculateCostBreakdown`. Every assignment is
grouped under `getDepartmentId(courseId)` (always department 1). -/
def calculateCostBreakdown (assignments : List Assignment) : CostBreakdown :=
  let step := fun (acc : ℚ × List (ℕ × ℚ)) (a : Assignment) =>
    let deptId := getDepartmentId a.courseId
    (acc.1 + a.cost,
     aset acc.2 deptId ((alookup acc.2 deptId).getD 0 + a.cost))
  let (totalCost, deptCosts) := assignments.foldl step (0, [])
  { totalCost := totalCost
    instructorCosts := 0
    facilityCosts := 0
    departmentCosts := deptCosts
    averageCostPerCourse :=
      if 0 < assignments.length then totalCost / (assignments.length : ℚ) else 0 }

/-- `OptimizationAlgorithm.calculateCostEfficiency`: bands of the average
cost per course against the fixed benchmark 8000. -/
def calculateCostEfficiency (costBreakdown : CostBreakdown) : ℚ :=
  let avgCost := costBreakdown.averageCostPerCourse
  if avgCost ≤ 8000 * (8/10) then 100
  else if avgCost ≤ 8000 then 80
  else if avgCost ≤ 8000 * (12/10) then 60
  else 40

/-- The allocation plan assembled by `optimizeAllocation`. -/
structure AllocationPlan where
  courseAssignments : List Assignment
  resourceUtilization : Utilization
  costBreakdown : CostBreakdown
  optimizationScore : Option ℚ
  warnings : List String
  recommendations : List String
  deriving DecidableEq

/-- `OptimizationAlgorithm.calculateOptimizationScore`: 40% utilization
efficiency, 30% cost-efficiency band, 30% constraint score (100 minus 10
per warning, floored at 0), rounded. -/
def calculateOptimizationScore (allocationPlan : AllocationPlan) : Option ℚ :=
  let utilizationScore := allocationPlan.resourceUtilization.overallEfficiency
  let costEfficiency := calculateCostEfficiency allocationPlan.costBreakdown
  let constraintScore : ℚ :=
    if allocationPlan.warnings.length = 0 then 100
    else max 0 (100 - (allocationPlan.warnings.length : ℚ) * 10)
  jsRound (oadd (oadd (omul utilizationScore (4/10))
    (some (costEfficiency * (3/10)))) (some (constraintScore * (3/10))))

/-- `OptimizationAlgorithm.generateWarnings`. -/
def generateWarnings (allocationPlan : AllocationPlan) : List String :=
  (if oLt allocationPlan.resourceUtilization.instructorsPercentage (some 70) then
    ["Low instructor utilization detected"] else []) ++
  (if oLt allocationPlan.resourceUtilization.facilitiesPercentage (some 60) then
    ["Low facility utilization detected"] else []) ++
  (if oLt allocationPlan.optimizationScore (some 70) then
    ["Overall optimization score is below target"] else [])

/-- `OptimizationAlgorithm.generateRecommendations`. -/
def generateRecommendations (allocationPlan : AllocationPlan) : List String :=
  (if oGt allocationPlan.resourceUtilization.instructorsPercentage (some 90) then
    ["Consider hiring additional instructors to reduce workload"] else []) ++
  (if oGt allocationPlan.resourceUtilization.facilitiesPercentage (some 85) then
    ["Facility capacity is near maximum - consider expanding or optimizing schedules"]
   else []) ++
  (if 10000 < allocationPlan.costBreakdown.averageCostPerCourse then
    ["High average cost per course - review instructor assignments and facility usage"]
   else [])

/-- `OptimizationAlgorithm.validateInputs`. In the typed model the
`resources`/`budget` presence checks cannot fail; the per-course required
fields are JS-falsy exactly when `0`. -/
def validateInputs (courses : List Course) : List String :=
  (if courses.length = 0 then ["No courses provided for optimization"] else []) ++
  courses.enum.filterMap (fun p =>
    if p.2.id = 0 ∨ p.2.department_id = 0 ∨ p.2.expected_students = 0 then
      some ("Course " ++ toString p.1 ++ " missing required fields")
    else none)

/-- `OptimizationAlgorithm.optimizeAllocation`: validation, candidate
generation, the greedy loop, utilization metrics, cost breakdown, then the
optimization score (step 6, while `warnings` is still the empty array of
the initial plan), then warnings and recommendations (step 7). A thrown
validation error is `none`. -/
def optimizeAllocation (resources : Resources) (courses : List Course)
    (budget : List (ℕ × ℚ)) (now : ℚ) : Option AllocationPlan :=
  if (validateInputs courses).length = 0 then
    let feasibleCombinations := generateFeasibleCombinations resources courses
    let optimizedAssignments := greedyOptimization feasibleCombinations budget now
    let resourceUtilization := calculateUtilization optimizedAssignments resources
    let costBreakdown := calculateCostBreakdown optimizedAssignments
    let planAtStep6 : AllocationPlan :=
      { courseAssignments := []
        resourceUtilization := resourceUtilization
        costBreakdown := costBreakdown
        optimizationScore := some 0
        warnings := []
        recommendations := [] }
    let optimizationScore := calculateOptimizationScore planAtStep6
    let planAtStep7 := { planAtStep6 with optimizationScore := optimizationScore }
    let warnings := generateWarnings planAtStep7
    let recommendations := generateRecommendations planAtStep7
    some { planAtStep7 with
            courseAssignments := optimizedAssignments
            warnings := warnings
            recommendations := recommendations }
  else none

/-! ## ResourceAllocator (src/models/ResourceAllocator.js)

Only the parts the claims are about: the compatibility matrix, the shared
constraint check, and the cost-minimization strategy loop. Preprocessing
initializes every instructor's `currentLoad` to 0 and every facility's
`currentUtilization` to 0; these mutable counters are carried here as
association lists keyed by id (an absent key reads as the initial 0). -/

/-- The merged constraints object; `maxInstructorLoad` (default 6) is the
only field the modelled code reads. -/
structure AllocConstraints where
  maxInstructorLoad : ℕ
  deriving DecidableEq

/-- `this.constraints` of ResourceAllocator. -/
def defaultAllocConstraints : AllocConstraints :=
  { maxInstructorLoad := 6 }

/-- `ResourceAllocator.findCompatibleInstructors`: same department, or a
(case-insensitive) substring match of the course subject inside the
instructor's qualifications, both fields being truthy. -/
def findCompatibleInstructors (course : Course)
    (instructors : List Instructor) : List Instructor :=
  instructors.filter (fun i =>
    if i.department_id = course.department_id then true
    else if jsTruthyStr i.qualifications && jsTruthyStr course.subject then
      jsIncludes (jsToLower (i.qualifications.getD ""))
        (jsToLower (course.subject.getD ""))
    else false)

/-- `ResourceAllocator.findCompatibleFacilities`: capacity at least the
expected students, required type (default CLASSROOM) or the CLASSROOM
fallback, and AVAILABLE status. -/
def findCompatibleFacilities (course : Course)
    (facilities : List Facility) : List Facility :=
  facilities.filter (fun f =>
    if f.capacity < course.expected_students then false
    else
      let requiredType := (jsOrDefaultStr course.facility_type "CLASSROOM")
      if f.type ≠ requiredType ∧ f.type ≠ "CLASSROOM" then false
      else decide (f.status = "AVAILABLE"))

/-- `ResourceAllocator.checkAssignmentConstraints`: the instructor's
current load (read from the run state) must be below `maxInstructorLoad`,
and the facility must hold the expected students. No budget, used-set or
facility-occupancy check is performed. -/
def checkAssignmentConstraints (course : Course) (currentLoad : ℕ)
    (facility : Facility) (maxInstructorLoad : ℕ) : Bool :=
  if maxInstructorLoad ≤ currentLoad then false
  else if facility.capacity < course.expected_students then false
  else true

/-- `ResourceAllocator.findOptimalTimeSlot` is a fixed placeholder slot. -/
structure TimeSlot where
  day : String
  startTime : String
  endTime : String
  deriving DecidableEq

/-- The placeholder time slot the source always returns. -/
def findOptimalTimeSlot : TimeSlot :=
  { day := "Monday", startTime := "10:00", endTime := "11:00" }

/-- An assignment committed by a ResourceAllocator strategy. -/
structure StratAssignment where
  courseId : ℕ
  instructorId : ℕ
  facilityId : ℕ
  cost : ℚ
  costBreakdown : ComprehensiveCost
  timeSlot : TimeSlot
  deriving DecidableEq

/-- The preprocessed allocation data handed to a strategy. -/
structure AllocData where
  instructors : List Instructor
  facilities : List Facility
  equipment : List Equipment
  courses : List Course
  deriving DecidableEq

/-- The per-run mutable counters of a strategy: committed assignments,
running total cost, instructor `currentLoad`s and facility
`currentUtilization`s. -/
structure AllocState where
  assignments : List StratAssignment
  totalCost : ℚ
  currentLoad : List (ℕ × ℕ)
  currentUtilization : List (ℕ × ℕ)
  deriving DecidableEq

/-- Keep the lower-cost assignment; the first candidate beats the initial
`Infinity`, later ones must be strictly cheaper (first-seen wins ties). -/
def considerCostCandidate (best : Option StratAssignment)
    (cand : StratAssignment) : Option StratAssignment :=
  match best with
  | none => some cand
  | some b => if cand.cost < b.cost then some cand else some b

/-- `ResourceAllocator.findCostOptimalAssignment`: scan compatible
instructor × facility pairs, keep the cheapest one passing
`checkAssignmentConstraints`. -/
def findCostOptimalAssignment (course : Course)
    (compatibleInstructors : List Instructor)
    (compatibleFacilities : List Facility) (equipment : List Equipment)
    (currentLoad : List (ℕ × ℕ)) (constraints : AllocConstraints)
    (now : ℚ) : Option StratAssignment :=
  compatibleInstructors.foldl (fun best i =>
    compatibleFacilities.foldl (fun best f =>
      if checkAssignmentConstraints course ((alookup currentLoad i.id).getD 0) f
          constraints.maxInstructorLoad then
        let cost := calculateComprehensiveCost course i f equipment
          emptyCostStructures now
        considerCostCandidate best
          { courseId := course.id
            instructorId := i.id
            facilityId := f.id
            cost := cost.totalCost
            costBreakdown := cost
            timeSlot := findOptimalTimeSlot }
      else best) best) none

/-- `ResourceAllocator.updateResourceAvailability`: bump the committed
instructor's load and the committed facility's utilization counter (the
source also appends to `assignedCourses`/`scheduledSlots`, which no
modelled code ever reads). -/
def updateResourceAvailability (data : AllocData) (st : AllocState)
    (a : StratAssignment) : AllocState :=
  { st with
      currentLoad :=
        if data.instructors.any (fun i => i.id == a.instructorId) then
          aset st.currentLoad a.instructorId
            ((alookup st.currentLoad a.instructorId).getD 0 + 1)
        else st.currentLoad
      currentUtilization :=
        if data.facilities.any (fun f => f.id == a.facilityId) then
          aset st.currentUtilization a.facilityId
            ((alookup st.currentUtilization a.facilityId).getD 0 + 1)
        else st.currentUtilization }

/-- Result record of a strategy run. -/
structure StrategyAllocation where
  assignments : List StratAssignment
  totalCost : ℚ
  strategy : String
  deriving DecidableEq

/-- The cost-efficiency sort key of `costMinimizationAllocation`:
`(instructor_cost + classroom_cost) / (expected_students || 1)`. -/
def costPerStudentKey (c : Course) : Option ℚ :=
  (oadd c.instructor_cost c.classroom_cost).map (fun s =>
    s / (if c.expected_students = 0 then 1 else c.expected_students))

/-- `ResourceAllocator.costMinimizationAllocation`: courses sorted by
ascending cost per student; for each, the cheapest feasible pair from the
compatibility matrix is committed and the availability counters updated.
(The compatibility matrix is built before the loop, but
`findCompatibleInstructors`/`findCompatibleFacilities` read no mutable
state, so computing the rows at use sites is observably identical.) -/
def costMinimizationAllocation (data : AllocData)
    (constraints : AllocConstraints) (now : ℚ) : StrategyAllocation :=
  let sortedCourses := sortBy (fun a b => oLe (costPerStudentKey a) (costPerStudentKey b))
    data.courses
  let final := sortedCourses.foldl (fun (st : AllocState) course =>
    match findCostOptimalAssignment course
        (findCompatibleInstructors course data.instructors)
        (findCompatibleFacilities course data.facilities)
        data.equipment st.currentLoad constraints now with
    | some a =>
        updateResourceAvailability data
          { st with
              assignments := st.assignments ++ [a]
              totalCost := st.totalCost + a.cost } a
    | none => st) ⟨[], 0, [], []⟩
  { assignments := final.assignments
    totalCost := final.totalCost
    strategy := "cost_minimization" }

/-! ## Claim-level helper definitions -/

/-- The department a committed assignment's course actually belongs to,
read off the course list (the spec's "assignments where
course.departmentId == d"; the engine itself never performs this lookup —
it uses the `getDepartmentId` stub). -/
def courseDepartmentOf (courses : List Course) (courseId : ℕ) : ℕ :=
  match courses.find? (fun c => c.id == courseId) with
  | some c => c.department_id
  | none => 0

/-- Total committed cost of the assignments whose course belongs to
department `d`. -/
def departmentCommittedCost (courses : List Course) (d : ℕ)
    (assignments : List Assignment) : ℚ :=
  ((assignments.filter (fun a => courseDepartmentOf courses a.courseId == d)).map
    (fun a => a.cost)).sum

/-- Total committed cost of a greedy run. -/
def totalAssignedCost (assignments : List Assignment) : ℚ :=
  (assignments.map (fun a => a.cost)).sum

/-- An assignment with the wall-clock `assignedAt` field erased; two runs
of the greedy loop at different clock readings agree on this projection. -/
def stripAssignedAt (a : Assignment) : ℕ × ℕ × ℕ × ℚ × ℚ :=
  (a.courseId, a.instructorId, a.facilityId, a.cost, a.utilityScore)

/-- State of the reference greedy loop with the budget test removed. -/
structure GreedyStateNB where
  assignments : List Assignment
  usedInstructors : List ℕ
  usedFacilities : List ℕ
  deriving DecidableEq

/-- One step of the reference loop: only the used-instructor and
used-facility tests, no budget test. -/
def greedyStepNoBudget (now : ℚ) (st : GreedyStateNB)
    (combination : Combination) : GreedyStateNB :=
  if combination.instructorId ∈ st.usedInstructors then st
  else if combination.facilityId ∈ st.usedFacilities then st
  else
    { assignments := st.assignments ++ [assignmentOf combination now]
      usedInstructors := combination.instructorId :: st.usedInstructors
      usedFacilities := combination.facilityId :: st.usedFacilities }

/-- Modelled from the claim: `greedyOptimization` with the budget test
deleted ("assignments for that department are committed with no spending
limit at all"); the reference point the claim compares the real loop to
when the budget map has no entry for the candidate's department. -/
def greedyOptimizationNoBudgetCheck (combinations : List Combination)
    (now : ℚ) : List Assignment :=
  (combinations.foldl (greedyStepNoBudget now) ⟨[], [], []⟩).assignments

/-! ## Concrete fixtures for the counterexamples and witnesses -/

/-- A feasible candidate for course 5 with instructor 1 / facility 1. -/
def combAlpha : Combination :=
  { courseId := 5, instructorId := 1, facilityId := 1, cost := 10,
    utilityScore := 120, constraints := ⟨true, []⟩ }

/-- A second feasible candidate for the same course 5 with a different
instructor and facility. -/
def combBeta : Combination :=
  { courseId := 5, instructorId := 2, facilityId := 2, cost := 10,
    utilityScore := 110, constraints := ⟨true, []⟩ }

/-- A candidate for course 10 (which belongs to department 2). -/
def combGamma : Combination :=
  { courseId := 10, instructorId := 3, facilityId := 4, cost := 1000,
    utilityScore := 100, constraints := ⟨true, []⟩ }

/-- Course 10 belongs to department 2. -/
def deptTwoCourse : Course :=
  { id := 10, department_id := 2, expected_students := 10,
    instructor_cost := some 1000, classroom_cost := some 0,
    credit_hours := none, hours_per_week := none, name := "Chemistry 101",
    subject := some "chem", facility_type := none }

/-- A budget map with a large department-1 budget and a small
department-2 budget. -/
def twoDeptBudget : List (ℕ × ℚ) := [(1, 100000), (2, 100)]

/-- A course used by the strategy counterexample. -/
def stratCourseA : Course :=
  { id := 11, department_id := 1, expected_students := 10,
    instructor_cost := some 100, classroom_cost := some 50,
    credit_hours := none, hours_per_week := none, name := "Algebra",
    subject := none, facility_type := none }

/-- A second course in the same department. -/
def stratCourseB : Course :=
  { id := 12, department_id := 1, expected_students := 10,
    instructor_cost := some 200, classroom_cost := some 50,
    credit_hours := none, hours_per_week := none, name := "Biology",
    subject := none, facility_type := none }

/-- The only instructor of the strategy counterexample. -/
def stratInstructor : Instructor :=
  { id := 7, department_id := 1, employment_type := "FULL_TIME",
    hourly_rate := none, qualifications := none, status := "ACTIVE" }

/-- The only facility of the strategy counterexample. -/
def stratFacility : Facility :=
  { id := 9, department_id := some 1, type := "CLASSROOM", capacity := 30,
    hourly_cost := some 10, utilities_cost_annual := none,
    maintenance_cost_annual := none, status := "AVAILABLE" }

/-- Two courses, one instructor, one facility: the ResourceAllocator
strategies will commit the same instructor (and facility) twice. -/
def stratData : AllocData :=
  { instructors := [stratInstructor], facilities := [stratFacility],
    equipment := [], courses := [stratCourseA, stratCourseB] }

/-- A department-1 course whose subject is mathematics. -/
def mathCourse : Course :=
  { id := 1, department_id := 1, expected_students := 10,
    instructor_cost := some 1000, classroom_cost := some 500,
    credit_hours := none, hours_per_week := none, name := "Mathematics 101",
    subject := some "Math", facility_type := none }

/-- A department-2 instructor whose qualifications contain the course's
subject token (so the spec's rule makes them compatible). -/
def crossDeptInstructor : Instructor :=
  { id := 2, department_id := 2, employment_type := "FULL_TIME",
    hourly_rate := none, qualifications := some "Mathematics PhD",
    status := "ACTIVE" }

/-- An available classroom large enough for `mathCourse`. -/
def mathFacility : Facility :=
  { id := 3, department_id := some 1, type := "CLASSROOM", capacity := 30,
    hourly_cost := some 20, utilities_cost_annual := none,
    maintenance_cost_annual := none, status := "AVAILABLE" }

/-- The resource pool of the candidate-generation counterexample. -/
def crossDeptResources : Resources :=
  { instructors := [crossDeptInstructor], facilities := [mathFacility],
    equipment := [] }

/-- A course with zero expected students (the divide-by-zero input). -/
def zeroStudentCourse : Course :=
  { id := 1, department_id := 1, expected_students := 0,
    instructor_cost := some 1000, classroom_cost := some 500,
    credit_hours := none, hours_per_week := none, name := "Mathematics 101",
    subject := some "math", facility_type := none }

/-- A budgeted map whose `total` is zero (the divide-by-zero input of the
variance analysis). -/
def zeroTotalBudgeted : CategoryMap := ⟨0, [("supplies", 10)]⟩

/-- The matching actuals map. -/
def varianceActuals : CategoryMap := ⟨50, [("supplies", 5)]⟩

/-! # Theorems -/

section

attribute [local semireducible] Rat.sub Rat.add Rat.mul Rat.inv

/-- C1, counterexample: the greedy loop never checks whether a course is
already assigned, so with two feasible candidates for course 5 (different
instructors and facilities, ample budget) course 5 is committed twice —
refuting the claim that no courseId appears in more than one committed
assignment. -/
theorem greedy_commits_course_twice :
    ¬ (((greedyOptimization [combAlpha, combBeta] [(1, 10000)] 0).map
      (fun a => a.courseId)).Nodup) := by decide

/-- C2, counterexample: `getDepartmentId` always returns 1, so a
department-2 course is charged against department 1's budget. With
`budget = {1: 100000, 2: 100}`, the only candidate (cost 1000, course 10
of department 2) is committed, and department 2's committed cost 1000
exceeds `budget[2] × 0.95 = 95` — refuting the per-department bound. -/
theorem greedy_department_budget_violated :
    ¬ (departmentCommittedCost [deptTwoCourse] 2
        (greedyOptimization [combGamma] twoDeptBudget 0)
      ≤ 100 * (1 - budgetBuffer)) := by decide

/-- C3, counterexample: the cost-minimization strategy checks only
`currentLoad < maxInstructorLoad` (6) and capacity, so with two courses
and a single instructor it commits that instructor twice — refuting the
claim that in every strategy a candidate is only committed when its
instructor is not already used. -/
theorem cost_minimization_reuses_instructor :
    ¬ (((costMinimizationAllocation stratData defaultAllocConstraints 0).assignments.map
      (fun a => a.instructorId)).Nodup) := by decide

/-- C4: with `expectedStudents = 0` the source returns `costPerStudent = 0`
(the guarded division) but computes `costPerCreditHour` as
`totalCost / (0 × 3)`, a division by zero producing a non-finite number
(`none`), not the 0 the spec requires: the `creditHours > 0` guard checks
the wrong factor of the denominator. -/
theorem costPerCreditHour_nonfinite_at_zero_students :
    (calculateComprehensiveCost zeroStudentCourse crossDeptInstructor mathFacility
      [] emptyCostStructures 0).costPerStudent = 0 ∧
    (calculateComprehensiveCost zeroStudentCourse crossDeptInstructor mathFacility
      [] emptyCostStructures 0).costPerCreditHour = none := by decide

/-- C5, counterexample: the units-of-production method never caps
accumulated depreciation: for purchaseCost 10000, rate 0.1, purchase date
0 and a clock 10 years later (yearsOwned = 10), accumulated depreciation
is 20000 > 0.9 × 10000 — refuting the claim that accumulated depreciation
never exceeds 90% of purchase cost for every method. -/
theorem units_of_production_exceeds_ninety_percent :
    ¬ ((calculateDepreciation 10000 0 (1/10) "units_of_production"
        315576000000).accumulatedDepreciation ≤ (9/10) * 10000) := by decide

/-- C5, amended: every method (the final `Math.max`) floors currentValue
at 10% of purchaseCost, and the straight-line method (the only capped one)
keeps accumulated depreciation at or below 90% of purchaseCost. -/
theorem depreciation_residual_floor_and_straight_line_cap
    (purchaseCost purchaseDate depreciationRate now : ℚ) (method : String) :
    purchaseCost * (1/10) ≤
      (calculateDepreciation purchaseCost purchaseDate depreciationRate
        method now).currentValue ∧
    (calculateDepreciation purchaseCost purchaseDate depreciationRate
      "straight_line" now).accumulatedDepreciation ≤ purchaseCost * (9/10) := by
  constructor
  · exact le_max_right _ _
  · exact min_le_right _ _

/-- C6, counterexample: a department-2 instructor whose qualifications
contain the course's subject token is compatible under the spec's rule
(as implemented by `findCompatibleInstructors`), yet
`generateFeasibleCombinations` — which requires same department AND
ACTIVE status and ignores qualifications — generates no candidate at all
for the course. -/
theorem qualified_cross_department_instructor_excluded :
    findCompatibleInstructors mathCourse [crossDeptInstructor] = [crossDeptInstructor] ∧
    generateFeasibleCombinations crossDeptResources [mathCourse] = [] := by decide

/-- C7: `totalVariancePercent` divides by `budgeted.total` without the
zero guard that the per-category percentages have: with a zero budgeted
total and actual total 50 the result is non-finite (`none`), not the 0
the spec requires, while the per-category figures stay guarded. -/
theorem totalVariancePercent_nonfinite_at_zero_budget :
    (generateVarianceAnalysis zeroTotalBudgeted varianceActuals "2024").totalVariance = 50 ∧
    (generateVarianceAnalysis zeroTotalBudgeted varianceActuals "2024").totalVariancePercent
      = none ∧
    (generateVarianceAnalysis zeroTotalBudgeted varianceActuals
      "2024").categoryVariances = [("supplies", ⟨10, 5, -5, -50⟩)] := by decide

/-- C8, counterexample: the committed assignments embed the wall-clock
`assignedAt = new Date()`, so two runs on identical inputs at clock
readings 0 and 1 return different assignment lists — refuting the claim
that independent runs produce identical plans. -/
theorem greedy_differs_across_clock_readings :
    greedyOptimization [combAlpha] [(1, 10000)] 0
      ≠ greedyOptimization [combAlpha] [(1, 10000)] 1 := by decide

/-- One greedy step preserves the id invariant: committed instructor and
facility ids are pairwise distinct and all recorded in the used sets. -/
theorem greedyStep_preserves_ids (budget : List (ℕ × ℚ)) (now : ℚ)
    (st : GreedyState) (c : Combination)
    (h1 : (st.assignments.map (fun a => a.instructorId)).Nodup)
    (h2 : ∀ a ∈ st.assignments, a.instructorId ∈ st.usedInstructors)
    (h3 : (st.assignments.map (fun a => a.facilityId)).Nodup)
    (h4 : ∀ a ∈ st.assignments, a.facilityId ∈ st.usedFacilities) :
    ((greedyStep budget now st c).assignments.map (fun a => a.instructorId)).Nodup ∧
    (∀ a ∈ (greedyStep budget now st c).assignments,
      a.instructorId ∈ (greedyStep budget now st c).usedInstructors) ∧
    ((greedyStep budget now st c).assignments.map (fun a => a.facilityId)).Nodup ∧
    (∀ a ∈ (greedyStep budget now st c).assignments,
      a.facilityId ∈ (greedyStep budget now st c).usedFacilities) := by
  simp only [greedyStep]
  split_ifs with hi hb hf
  · exact ⟨h1, h2, h3, h4⟩
  · exact ⟨h1, h2, h3, h4⟩
  · exact ⟨h1, h2, h3, h4⟩
  · refine ⟨?_, ?_, ?_, ?_⟩
    · simp only [List.map_append, List.map_cons, List.map_nil]
      rw [List.nodup_append]
      refine ⟨h1, List.nodup_singleton _, fun x hx hx2 => ?_⟩
      obtain ⟨a, ha, hax⟩ := List.mem_map.mp hx
      rw [List.mem_singleton] at hx2
      simp only [assignmentOf] at hx2
      exact hi (hx2 ▸ hax ▸ h2 a ha)
    · intro a ha
      rcases List.mem_append.mp ha with ha | ha
      · exact List.mem_cons_of_mem _ (h2 a ha)
      · rw [List.mem_singleton] at ha
        subst ha
        simp only [assignmentOf]
        exact List.mem_cons_self _ _
    · simp only [List.map_append, List.map_cons, List.map_nil]
      rw [List.nodup_append]
      refine ⟨h3, List.nodup_singleton _, fun x hx hx2 => ?_⟩
      obtain ⟨a, ha, hax⟩ := List.mem_map.mp hx
      rw [List.mem_singleton] at hx2
      simp only [assignmentOf] at hx2
      exact hf (hx2 ▸ hax ▸ h4 a ha)
    · intro a ha
      rcases List.mem_append.mp ha with ha | ha
      · exact List.mem_cons_of_mem _ (h4 a ha)
      · rw [List.mem_singleton] at ha
        subst ha
        simp only [assignmentOf]
        exact List.mem_cons_self _ _

/-- The id invariant holds for the whole greedy fold. -/
theorem greedy_foldl_ids_invariant (budget : List (ℕ × ℚ)) (now : ℚ)
    (combos : List Combination) :
    ∀ (st : GreedyState),
      (st.assignments.map (fun a => a.instructorId)).Nodup →
      (∀ a ∈ st.assignments, a.instructorId ∈ st.usedInstructors) →
      (st.assignments.map (fun a => a.facilityId)).Nodup →
      (∀ a ∈ st.assignments, a.facilityId ∈ st.usedFacilities) →
      (((combos.foldl (greedyStep budget now) st).assignments.map
          (fun a => a.instructorId)).Nodup ∧
        ((combos.foldl (greedyStep budget now) st).assignments.map
          (fun a => a.facilityId)).Nodup) := by
  induction combos with
  | nil => intro st h1 h2 h3 h4; exact ⟨h1, h3⟩
  | cons c combos ih =>
    intro st h1 h2 h3 h4
    simp only [List.foldl_cons]
    obtain ⟨g1, g2, g3, g4⟩ := greedyStep_preserves_ids budget now st c h1 h2 h3 h4
    exact ih _ g1 g2 g3 g4

/-- C1, amended: in every run of `greedyOptimization`, no instructorId and
no facilityId appears in more than one committed assignment (each commit
requires the id to be absent from the used set and then records it). -/
theorem greedy_instructor_facility_ids_nodup (combos : List Combination)
    (budget : List (ℕ × ℚ)) (now : ℚ) :
    ((greedyOptimization combos budget now).map (fun a => a.instructorId)).Nodup ∧
    ((greedyOptimization combos budget now).map (fun a => a.facilityId)).Nodup := by
  unfold greedyOptimization
  exact greedy_foldl_ids_invariant budget now combos (greedyInit budget)
    (by simp [greedyInit]) (by simp [greedyInit]) (by simp [greedyInit])
    (by simp [greedyInit])

/-- Writing a key of an association object and reading it back yields the
written value. -/
theorem alookup_aset_self {β : Type} (l : List (ℕ × β)) (d : ℕ) (v : β) :
    alookup (aset l d v) d = some v := by
  induction l with
  | nil => simp [aset, alookup]
  | cons p t ih =>
    by_cases hp : p.1 = d
    · simp [aset, hp, alookup]
    · simp [aset, hp, alookup, ih]

/-- Reading back a written spending entry. -/
theorem spendingGet_aset_self (l : List (ℕ × Option ℚ)) (d : ℕ)
    (v : Option ℚ) : spendingGet (aset l d v) d = v := by
  simp [spendingGet, alookup_aset_self]

/-- The initial spending object maps every budget key to 0. -/
theorem spendingGet_map_zero (budget : List (ℕ × ℚ)) (d : ℕ) (b : ℚ)
    (h : alookup budget d = some b) :
    spendingGet (budget.map (fun p => (p.1, some (0:ℚ)))) d = some 0 := by
  induction budget with
  | nil => simp [alookup] at h
  | cons p t ih =>
    by_cases hp : p.1 = d
    · simp [spendingGet, alookup, hp]
    · rw [alookup, if_neg hp] at h
      simp only [List.map_cons]
      simp [spendingGet, alookup, hp]
      have := ih h
      simpa [spendingGet] using this

/-- Appending one assignment adds its cost to the total. -/
theorem totalAssignedCost_append (l : List Assignment) (a : Assignment) :
    totalAssignedCost (l ++ [a]) = totalAssignedCost l + a.cost := by
  simp [totalAssignedCost]

/-- One greedy step preserves the department-1 spending invariant: the
spending entry equals the total committed cost and stays within the
buffered budget. -/
theorem greedyStep_budget_invariant (budget : List (ℕ × ℚ)) (now : ℚ)
    (st : GreedyState) (c : Combination) (b : ℚ)
    (hb : alookup budget 1 = some b)
    (h1 : spendingGet st.departmentSpending 1
      = some (totalAssignedCost st.assignments))
    (h2 : totalAssignedCost st.assignments ≤ b * (1 - budgetBuffer)) :
    spendingGet (greedyStep budget now st c).departmentSpending 1
      = some (totalAssignedCost (greedyStep budget now st c).assignments) ∧
    totalAssignedCost (greedyStep budget now st c).assignments
      ≤ b * (1 - budgetBuffer) := by
  simp only [greedyStep, getDepartmentId]
  split_ifs with hi hbskip hf
  · exact ⟨h1, h2⟩
  · exact ⟨h1, h2⟩
  · exact ⟨h1, h2⟩
  · have hle : totalAssignedCost st.assignments + c.cost ≤ b * (1 - budgetBuffer) := by
      rw [h1, hb] at hbskip
      simp only [budgetSkip, decide_eq_true_eq] at hbskip
      exact not_lt.mp hbskip
    constructor
    · rw [spendingGet_aset_self, h1, totalAssignedCost_append]
      simp [spendAdd, assignmentOf]
    · rw [totalAssignedCost_append]
      simpa [assignmentOf] using hle

/-- The department-1 spending invariant holds for the whole greedy fold. -/
theorem greedy_foldl_budget_invariant (budget : List (ℕ × ℚ)) (now : ℚ)
    (b : ℚ) (hb : alookup budget 1 = some b) (combos : List Combination) :
    ∀ (st : GreedyState),
      spendingGet st.departmentSpending 1
        = some (totalAssignedCost st.assignments) →
      totalAssignedCost st.assignments ≤ b * (1 - budgetBuffer) →
      totalAssignedCost (combos.foldl (greedyStep budget now) st).assignments
        ≤ b * (1 - budgetBuffer) := by
  induction combos with
  | nil => intro st _ h2; exact h2
  | cons c combos ih =>
    intro st h1 h2
    simp only [List.foldl_cons]
    obtain ⟨g1, g2⟩ := greedyStep_budget_invariant budget now st c b hb h1 h2
    exact ih _ g1 g2

/-- C2, amended: the engine pools all spending under `getDepartmentId`'s
constant department 1, so the bound that actually holds is: when the
budget object has an entry `b ≥ 0` for department 1, the total cost of all
committed assignments never exceeds `b × (1 − 0.05)` (holds after every
commit since the greedy fold of any prefix of the candidate list is the
corresponding intermediate state). The claimed per-department bound is
false — see the counterexample. -/
theorem greedy_total_cost_bounded_by_dept1_budget (combos : List Combination)
    (budget : List (ℕ × ℚ)) (now : ℚ) (b : ℚ)
    (hb : alookup budget 1 = some b) (hb0 : 0 ≤ b) :
    totalAssignedCost (greedyOptimization combos budget now)
      ≤ b * (1 - budgetBuffer) := by
  unfold greedyOptimization
  have h0 : spendingGet (greedyInit budget).departmentSpending 1
      = some (totalAssignedCost (greedyInit budget).assignments) := by
    have := spendingGet_map_zero budget 1 b hb
    simpa [greedyInit, totalAssignedCost] using this
  have h2 : totalAssignedCost (greedyInit budget).assignments
      ≤ b * (1 - budgetBuffer) := by
    have hpos : (0:ℚ) ≤ 1 - budgetBuffer := by norm_num [budgetBuffer]
    simpa [greedyInit, totalAssignedCost] using mul_nonneg hb0 hpos
  exact greedy_foldl_budget_invariant budget now b hb combos (greedyInit budget) h0 h2

/-- C2, witness for the amended bound: a run with budget `{1: 100}` and a
single cost-10 candidate stays below `100 × 0.95`. -/
theorem greedy_total_cost_bounded_by_dept1_budget_witness :
    totalAssignedCost (greedyOptimization [combAlpha] [(1, 100)] 0)
      ≤ 100 * (1 - budgetBuffer) :=
  greedy_total_cost_bounded_by_dept1_budget [combAlpha] [(1, 100)] 0 100
    rfl (by norm_num)

/-- C3, amended: the checks the claim describes are performed (only) by
the shared greedy loop: a step of `greedyOptimization` changes the state —
i.e. commits its candidate — only when the instructor is not in the
used-instructor set, the facility is not in the used-facility map, and the
budget comparison does not flag the candidate (`budgetSkip` is false; when
spending and budget for the candidate's department are defined numbers
this is exactly `spend + cost ≤ budget × (1 − 0.05)`). The four
ResourceAllocator strategies perform none of these checks
(`checkAssignmentConstraints` tests only `currentLoad < 6` and capacity) —
see the counterexample. -/
theorem greedyStep_commit_requires_checks (budget : List (ℕ × ℚ)) (now : ℚ)
    (st : GreedyState) (c : Combination)
    (h : greedyStep budget now st c ≠ st) :
    c.instructorId ∉ st.usedInstructors ∧
    c.facilityId ∉ st.usedFacilities ∧
    budgetSkip (spendingGet st.departmentSpending (getDepartmentId c.courseId))
      c.cost (alookup budget (getDepartmentId c.courseId)) = false ∧
    (greedyStep budget now st c).assignments
      = st.assignments ++ [assignmentOf c now] := by
  simp only [greedyStep, getDepartmentId] at h ⊢
  split_ifs at h ⊢ with hi hb hf
  · exact absurd rfl h
  · exact absurd rfl h
  · exact absurd rfl h
  · exact ⟨hi, hf, Bool.not_eq_true _ ▸ hb, rfl⟩

/-- C3, witness: from the initial state of budget `{1: 100}`, the step on
the cost-10 candidate commits, so all three checks held at that moment. -/
theorem greedyStep_commit_requires_checks_witness :
    combAlpha.instructorId ∉ (greedyInit [(1, 100)]).usedInstructors ∧
    combAlpha.facilityId ∉ (greedyInit [(1, 100)]).usedFacilities ∧
    budgetSkip (spendingGet (greedyInit [(1, 100)]).departmentSpending
        (getDepartmentId combAlpha.courseId)) combAlpha.cost
      (alookup [(1, 100)] (getDepartmentId combAlpha.courseId)) = false ∧
    (greedyStep [(1, 100)] 0 (greedyInit [(1, 100)]) combAlpha).assignments
      = (greedyInit [(1, 100)]).assignments ++ [assignmentOf combAlpha 0] :=
  greedyStep_commit_requires_checks [(1, 100)] 0 (greedyInit [(1, 100)])
    combAlpha (by decide)

/-- Two greedy folds at different clock readings stay in lock-step: the
control state is identical and the assignment lists agree up to the
`assignedAt` stamp. -/
theorem greedy_foldl_strip (budget : List (ℕ × ℚ)) (t1 t2 : ℚ)
    (combos : List Combination) :
    ∀ (st1 st2 : GreedyState),
      st1.usedInstructors = st2.usedInstructors →
      st1.usedFacilities = st2.usedFacilities →
      st1.departmentSpending = st2.departmentSpending →
      st1.assignments.map stripAssignedAt = st2.assignments.map stripAssignedAt →
      ((combos.foldl (greedyStep budget t1) st1).assignments.map stripAssignedAt
          = (combos.foldl (greedyStep budget t2) st2).assignments.map stripAssignedAt ∧
        (combos.foldl (greedyStep budget t1) st1).usedInstructors
          = (combos.foldl (greedyStep budget t2) st2).usedInstructors ∧
        (combos.foldl (greedyStep budget t1) st1).usedFacilities
          = (combos.foldl (greedyStep budget t2) st2).usedFacilities ∧
        (combos.foldl (greedyStep budget t1) st1).departmentSpending
          = (combos.foldl (greedyStep budget t2) st2).departmentSpending) := by
  induction combos with
  | nil => intro st1 st2 h1 h2 h3 h4; exact ⟨h4, h1, h2, h3⟩
  | cons c combos ih =>
    intro st1 st2 h1 h2 h3 h4
    simp only [List.foldl_cons]
    apply ih
    all_goals simp only [greedyStep, getDepartmentId, h1, h2, h3]
    all_goals split_ifs with hi hb hf
    all_goals simp [h1, h2, h3, h4, stripAssignedAt, assignmentOf]

/-- C8, amended: for a fixed clock reading the greedy allocation is a pure
deterministic function of its inputs, and two runs on identical inputs at
different clock readings agree on everything except the `assignedAt`
timestamp: the `stripAssignedAt` projections of the committed assignment
lists are equal. (As stated — identical plans — the claim fails; see the
counterexample.) -/
theorem greedy_deterministic_up_to_timestamp (combos : List Combination)
    (budget : List (ℕ × ℚ)) (t1 t2 : ℚ) :
    (greedyOptimization combos budget t1).map stripAssignedAt
      = (greedyOptimization combos budget t2).map stripAssignedAt := by
  unfold greedyOptimization
  exact (greedy_foldl_strip budget t1 t2 combos (greedyInit budget)
    (greedyInit budget) rfl rfl rfl rfl).1

/-- With no budget entry for the candidate's department the budget test
never fires. -/
theorem budgetSkip_none (s : Option ℚ) (c : ℚ) :
    budgetSkip s c none = false := by
  cases s <;> rfl

/-- With no department-1 budget entry, the greedy fold and the
check-free reference fold commit exactly the same assignments. -/
theorem greedy_foldl_no_budget (budget : List (ℕ × ℚ)) (t : ℚ)
    (hb : alookup budget 1 = none) (combos : List Combination) :
    ∀ (st : GreedyState) (stnb : GreedyStateNB),
      st.assignments = stnb.assignments →
      st.usedInstructors = stnb.usedInstructors →
      st.usedFacilities = stnb.usedFacilities →
      ((combos.foldl (greedyStep budget t) st).assignments
          = (combos.foldl (greedyStepNoBudget t) stnb).assignments ∧
        (combos.foldl (greedyStep budget t) st).usedInstructors
          = (combos.foldl (greedyStepNoBudget t) stnb).usedInstructors ∧
        (combos.foldl (greedyStep budget t) st).usedFacilities
          = (combos.foldl (greedyStepNoBudget t) stnb).usedFacilities) := by
  induction combos with
  | nil => intro st stnb h1 h2 h3; exact ⟨h1, h2, h3⟩
  | cons c combos ih =>
    intro st stnb h1 h2 h3
    simp only [List.foldl_cons]
    apply ih
    all_goals simp only [greedyStep, greedyStepNoBudget, getDepartmentId, hb,
      budgetSkip_none, h1, h2, h3]
    all_goals split_ifs
    all_goals simp_all

/-- C9: when the budget map has no entry for the candidates' department
(always department 1, by the `getDepartmentId` stub), the budget
comparison evaluates on non-numbers and is always false, so no candidate
is ever rejected for budget reasons: the run commits exactly what the
budget-check-free loop commits — there is no spending limit at all. -/
theorem greedy_missing_budget_entry_never_rejects (combos : List Combination)
    (budget : List (ℕ × ℚ)) (t : ℚ) (hb : alookup budget 1 = none) :
    greedyOptimization combos budget t
      = greedyOptimizationNoBudgetCheck combos t := by
  unfold greedyOptimization greedyOptimizationNoBudgetCheck
  exact (greedy_foldl_no_budget budget t hb combos (greedyInit budget)
    ⟨[], [], []⟩ (by simp [greedyInit]) (by simp [greedyInit])
    (by simp [greedyInit])).1

/-- C9, witness: a budget object holding only department 2 leaves the
department-1 lookup undefined, and the run equals the check-free one. -/
theorem greedy_missing_budget_entry_never_rejects_witness :
    greedyOptimization [combAlpha] [(2, 100)] 0
      = greedyOptimizationNoBudgetCheck [combAlpha] 0 :=
  greedy_missing_budget_entry_never_rejects [combAlpha] [(2, 100)] 0 (by decide)

/-- Membership is invariant under stable insertion. -/
theorem mem_insertSorted {α : Type} (le : α → α → Bool) (a x : α) :
    ∀ (l : List α), (x ∈ insertSorted le a l ↔ x = a ∨ x ∈ l) := by
  intro l
  induction l with
  | nil => simp [insertSorted]
  | cons b t ih =>
    simp only [insertSorted]
    split_ifs
    · simp [List.mem_cons]
    · simp only [List.mem_cons, ih]
      tauto

/-- Membership is invariant under the modelled JS sort. -/
theorem mem_sortBy {α : Type} (le : α → α → Bool) (x : α) :
    ∀ (l : List α), (x ∈ sortBy le l ↔ x ∈ l) := by
  intro l
  induction l with
  | nil => simp [sortBy]
  | cons a t ih => simp [sortBy, mem_insertSorted, List.mem_cons, ih]

/-- Membership in the concatenation of per-element lists. -/
theorem mem_concatMap {α β : Type} (f : α → List β) (b : β) :
    ∀ (l : List α), (b ∈ concatMap f l ↔ ∃ a ∈ l, b ∈ f a) := by
  intro l
  induction l with
  | nil => simp [concatMap]
  | cons a t ih =>
    simp only [concatMap, List.mem_append, ih, List.mem_cons]
    constructor
    · rintro (h | ⟨x, hx, hbx⟩)
      · exact ⟨a, Or.inl rfl, h⟩
      · exact ⟨x, Or.inr hx, hbx⟩
    · rintro ⟨x, hx | hx, hbx⟩
      · exact Or.inl (hx ▸ hbx)
      · exact Or.inr ⟨x, hx, hbx⟩

/-- C6, amended: `generateFeasibleCombinations` admits exactly the triples
whose instructor is in the course's department AND has ACTIVE status
(qualifications are ignored — the spec's cross-department qualification
rule lives only in `ResourceAllocator.findCompatibleInstructors`), and
whose facility has capacity ≥ expectedStudents, is AVAILABLE, and is in
the course's department or of type CLASSROOM (the course's required
facility type is ignored). -/
theorem generateFeasibleCombinations_membership (resources : Resources)
    (courses : List Course) (combo : Combination) :
    combo ∈ generateFeasibleCombinations resources courses ↔
      ∃ course ∈ courses, ∃ i ∈ resources.instructors,
        ∃ f ∈ resources.facilities,
          i.department_id = course.department_id ∧ i.status = "ACTIVE" ∧
          course.expected_students ≤ f.capacity ∧ f.status = "AVAILABLE" ∧
          (f.department_id = some course.department_id ∨ f.type = "CLASSROOM") ∧
          combo = mkCombination course i f := by
  unfold generateFeasibleCombinations
  rw [mem_sortBy, mem_concatMap]
  constructor
  · rintro ⟨course, hc, hcombo⟩
    rw [mem_concatMap] at hcombo
    obtain ⟨i, hi, hcombo⟩ := hcombo
    rw [List.mem_filter] at hi
    obtain ⟨hiMem, hiCond⟩ := hi
    rw [List.mem_filterMap] at hcombo
    obtain ⟨f, hf, hsome⟩ := hcombo
    rw [List.mem_filter] at hf
    obtain ⟨hfMem, hfCond⟩ := hf
    simp only [Bool.and_eq_true, Bool.or_eq_true, decide_eq_true_eq]
      at hiCond hfCond
    obtain ⟨⟨hcap, hstat⟩, hdep⟩ := hfCond
    have hfeas : (mkCombination course i f).constraints.feasible = true := by
      simp only [mkCombination, checkConstraints, Bool.not_eq_true',
        decide_eq_false_iff_not]
      exact not_lt.mpr hcap
    rw [if_pos hfeas] at hsome
    exact ⟨course, hc, i, hiMem, f, hfMem, hiCond.1, hiCond.2, hcap, hstat,
      hdep, (Option.some.inj hsome).symm⟩
  · rintro ⟨course, hc, i, hiMem, f, hfMem, h1, h2, h3, h4, h5, rfl⟩
    refine ⟨course, hc, ?_⟩
    rw [mem_concatMap]
    refine ⟨i, ?_, ?_⟩
    · rw [List.mem_filter]
      refine ⟨hiMem, ?_⟩
      simp [h1, h2]
    · rw [List.mem_filterMap]
      refine ⟨f, ?_, ?_⟩
      · rw [List.mem_filter]
        refine ⟨hfMem, ?_⟩
        simp only [Bool.and_eq_true, Bool.or_eq_true, decide_eq_true_eq]
        exact ⟨⟨h3, h4⟩, h5⟩
      · have hfeas : (mkCombination course i f).constraints.feasible = true := by
          simp only [mkCombination, checkConstraints, Bool.not_eq_true',
            decide_eq_false_iff_not]
          exact not_lt.mpr h3
        rw [if_pos hfeas]

/-- C10: in `optimizeAllocation` the optimization score (step 6) is
computed from the utilization metrics and the cost breakdown while
`warnings` is still the empty array of the freshly initialized plan;
warnings are generated only afterwards (step 7). Hence the stored score of
every returned plan equals
`round(0.4 × overallEfficiency + 0.3 × costEfficiency + 0.3 × 100)` — the
constraint-satisfaction component always contributes its full 30 points,
even when the returned plan carries warnings. -/
theorem optimizationScore_computed_before_warnings (resources : Resources)
    (courses : List Course) (budget : List (ℕ × ℚ)) (now : ℚ) :
    (optimizeAllocation resources courses budget now).map
        (fun p => p.optimizationScore)
      = (optimizeAllocation resources courses budget now).map (fun p =>
          jsRound (oadd (oadd (omul p.resourceUtilization.overallEfficiency (4/10))
            (some (calculateCostEfficiency p.costBreakdown * (3/10))))
            (some ((100 : ℚ) * (3/10))))) := by
  unfold optimizeAllocation
  split
  · simp [calculateOptimizationScore]
  · rfl

end
